import Mathlib

/-!
Verification development for the tika-xapian note indexer / query tool.

Strings are modelled as `List Char`. The nom combinator semantics are
embedded directly: a streaming `tag_no_case` yields `incomplete` when the
input is a strict case-insensitive prefix of the tag, `error` on a
mismatch; `alt` falls through to the next branch only on `error`
(an `incomplete` result propagates immediately).  `complete!` turns
`incomplete` into `error`, which is how the `take_until!` alternatives in
`take_up_to_operator` behave.  Calls into the external Xapian engine
(`QueryParser::new`, `parse_query`, `add_right`) are modelled as always
succeeding, producing nodes of the `XQuery` tree; their internal failures
are engine-side and outside this development.  A Rust `panic!` is modelled
as the distinguished outcome `POutcome.panicked`.
-/

/-- Convert a string literal to the `List Char` representation used throughout. -/
def s2l (s : String) : List Char := s.toList

/-- ASCII lower-casing, the effect of nom's case-insensitive byte comparison
on the ASCII operator keywords used by this program. -/
def lowerChar (c : Char) : Char :=
  if 'A' ≤ c ∧ c ≤ 'Z' then Char.ofNat (c.toNat + 32) else c

/-- Result of nom's `compare_no_case` on (input, tag). -/
inductive CmpRes where
  | ok
  | incomplete
  | error
deriving DecidableEq

/-- nom `compare_no_case` of an input `i` against a tag `t` (tag passed
first): `ok` when the tag is a case-insensitive prefix of the input,
`incomplete` when the input ran out first with the overlap matching,
`error` on a mismatch. -/
def compareNoCase : List Char → List Char → CmpRes
  | [], _ => .ok
  | _ :: _, [] => .incomplete
  | b :: bs, a :: as =>
    if lowerChar a = lowerChar b then compareNoCase bs as else .error

/-- Outcome of a nom parser: `ok rest val`, or the two failure modes. -/
inductive NomRes (α : Type) where
  | ok (rest : List Char) (val : α)
  | incomplete
  | error
deriving DecidableEq

/-- nom streaming `tag_no_case(t)` applied to input `i`
(src/src/xapian_utils.rs imports `bytes::streaming::tag_no_case`). -/
def tagNoCase (t i : List Char) : NomRes (List Char) :=
  match compareNoCase t i with
  | .ok => .ok (List.drop t.length i) (List.take t.length i)
  | .incomplete => .incomplete
  | .error => .error

/-- Local representation of xapian expression operators
(src/src/xapian_utils.rs lines 27-43, `enum MatchOp`). -/
inductive MatchOp where
  | And
  | AndNot
  | Or
  | Xor
  | AndMaybe
  | Filter
  | Near
  | Phrase
  | ValueRange
  | ScaleWeight
  | EliteSet
  | ValueGe
  | ValueLe
  | Synonym
deriving DecidableEq

/-- The `alt((value(op, tag_no_case(..)), ...))` table of `matchop`
(src/src/xapian_utils.rs lines 110-125), in source order. -/
def opTable : List (MatchOp × List Char) :=
  [(.AndNot, s2l "AND NOT"), (.AndMaybe, s2l "AND MAYBE"), (.And, s2l "AND"),
   (.Xor, s2l "XOR"), (.Or, s2l "OR"), (.Filter, s2l "FILTER"),
   (.Near, s2l "NEAR"), (.Phrase, s2l "PHRASE"), (.ValueRange, s2l "RANGE"),
   (.ScaleWeight, s2l "SCALED"), (.EliteSet, s2l "ELITE"), (.ValueGe, s2l ">"),
   (.ValueLe, s2l "<"), (.Synonym, s2l "SYNONYM")]

/-- nom `alt` over `value(op, tag_no_case(t))` branches: only an `error`
falls through to the next branch; `incomplete` propagates immediately. -/
def altOps : List (MatchOp × List Char) → List Char → NomRes MatchOp
  | [], _ => .error
  | (op, t) :: rest, i =>
    match tagNoCase t i with
    | .ok r _ => .ok r op
    | .incomplete => .incomplete
    | .error => altOps rest i

/-- `matchop` (src/src/xapian_utils.rs lines 109-126): recognize one
boolean operator keyword at the head of the input, longest-listed-first. -/
def matchop (i : List Char) : NomRes MatchOp := altOps opTable i

/-- First index at which `t` occurs as a contiguous substring of the input,
the search nom's `take_until!` performs. -/
def findSubstr (t : List Char) : List Char → Option Nat
  | [] => if t.isPrefixOf ([] : List Char) then some 0 else none
  | c :: cs =>
    if t.isPrefixOf (c :: cs) then some 0
    else (findSubstr t cs).map (· + 1)

/-- The needle list of `take_up_to_operator`
(src/src/xapian_utils.rs lines 685-697), in `alt!` source order. -/
def needles : List (List Char) :=
  [s2l "AND NOT", s2l "and not", s2l "AND", s2l "and",
   s2l "XOR", s2l "xor", s2l "OR", s2l "or"]

/-- Try each needle in order; `complete!(take_until!(t))` fails with `error`
when `t` does not occur, so the `alt!` moves on to the next needle. -/
def findFirstNeedle : List (List Char) → List Char → Option Nat
  | [], _ => none
  | t :: ts, i =>
    match findSubstr t i with
    | some k => some k
    | none => findFirstNeedle ts i

/-- `take_up_to_operator` (src/src/xapian_utils.rs lines 685-697): take the
input up to the first occurrence of an operator spelling, returning
(rest starting at the operator, consumed chunk); `error` if none occurs. -/
def take_up_to_operator (i : List Char) : NomRes (List Char) :=
  match findFirstNeedle needles i with
  | some k => .ok (List.drop k i) (List.take k i)
  | none => .error

/-- Query tree built by `parse_user_query`: `leaf s` stands for
`qp.parse_query(s, flags)` handed to the external engine, `node` for
`query.add_right(op, subquery)`. -/
inductive XQuery where
  | leaf (s : List Char)
  | node (l : XQuery) (op : MatchOp) (r : XQuery)
deriving DecidableEq

/-- Outcome of a call that can `panic!`: either a returned `Ok` value or a
process-terminating panic.  The `?`-propagated engine errors are modelled
as succeeding (see module comment), so no `Err` outcome arises here. -/
inductive POutcome (α : Type) where
  | ok (q : α)
  | panicked
deriving DecidableEq

/-- The `while qstr.len() > 0` loop of `parse_user_query`
(src/src/xapian_utils.rs lines 645-679).  `depth` is incremented at the
top of each iteration; the guard `if depth > 50 { panic! }` runs after the
operator has been popped.  `matchop` failing to recognize the leading
operator is the `panic!("Couldn't match leading operator ...")` arm.
The `fuel` argument only drives the structural recursion: the depth guard
stops the loop after at most 51 iterations, so fuel 100 is never
exhausted and the fuel-0 arm is unreachable. -/
def puqLoop (fuel depth : Nat) (query : XQuery) (operator : MatchOp)
    (qstr : List Char) : POutcome XQuery :=
  match qstr with
  | [] => .ok query
  | c :: cs =>
    match fuel with
    | 0 => .panicked
    | fuel + 1 =>
      let qstr := c :: cs
      let depth := depth + 1
      match take_up_to_operator qstr with
      | .ok rest matched =>
        let query := XQuery.node query operator (XQuery.leaf matched)
        match matchop rest with
        | .ok rest2 op2 =>
          if depth > 50 then .panicked
          else puqLoop fuel depth query op2 rest2
        | _ => .panicked
      | _ => .ok (XQuery.node query operator (XQuery.leaf qstr))

/-- `parse_user_query` (src/src/xapian_utils.rs lines 606-682).  When no
operator spelling occurs in the input, the whole string is handed to the
engine's own parser (`return Ok(qp.parse_query(qstr, flags)?)`).
Otherwise the initial chunk becomes the first query, the leading operator
is popped with `matchop` (panicking if that fails), and the loop folds the
remaining chunks left-associatively. -/
def parse_user_query (qstr : List Char) : POutcome XQuery :=
  match take_up_to_operator qstr with
  | .ok rest matched =>
    match matchop rest with
    | .ok rest2 op => puqLoop 100 0 (XQuery.leaf matched) op rest2
    | _ => .panicked
  | _ => .ok (XQuery.leaf qstr)

/-- Xapian tags in human format (src/src/xapian_utils.rs lines 352-361,
`enum XapianTag`). -/
inductive XapianTag where
  | Author
  | Date
  | Filename
  | Fullpath
  | Title
  | Subtitle
  | Tag
deriving DecidableEq

/-- `XapianTag::to_xapian` (src/src/xapian_utils.rs lines 364-374), the
query-side resolution of a recognized field name to its term tag, used by
`expression_into_query` through `parse_query_with_prefix`. -/
def XapianTag.to_xapian : XapianTag → List Char
  | .Author => s2l "A"
  | .Date => s2l "D"
  | .Filename => s2l "F"
  | .Fullpath => s2l "F"
  | .Title => s2l "S"
  | .Subtitle => s2l "XS"
  | .Tag => s2l "K"

/-- The sequence of `tg.index_text_with_prefix(text, tag)` calls made by
`perform_index` (src/src/main.rs lines 449-457), as (tag, text) pairs with
the literal tag strings of the source.  The field values are passed
explicitly because `perform_index` reads `tikadoc.date_str()` and
`tikadoc.subtitle`, which the `TikaDocument` struct in
src/src/tika_document.rs does not itself declare. -/
def perform_index_terms (author dateStr filename fullPath title subtitle : List Char)
    (tags : List (List Char)) : List (List Char × List Char) :=
  [(s2l "A", author), (s2l "D", dateStr), (s2l "F", filename), (s2l "F", fullPath),
   (s2l "S", title), (s2l "XS", subtitle)] ++ tags.map (fun v => (s2l "K", v))

/-- `TikaDocument` (src/src/tika_document.rs lines 20-41), with strings as
`List Char`.  `full_path` and `body` are `skip_deserializing`; `tags`
deserializes through `string_or_list_string`. -/
structure TikaDocument where
  filename : List Char
  full_path : List Char
  author : List Char
  date : List Char
  tags : List (List Char)
  title : List Char
  body : List Char
deriving DecidableEq

/-- `TikaDocument::parse_date` (src/src/tika_document.rs lines 44-55).
The two chrono parsers (`DateTime::parse_from_rfc3339` and
`DateTime::parse_from_str` with format `%Y-%m-%dT%T%z`) are external
collaborators, abstracted as functions returning `some` exactly on the
strings they accept.  The error message carries `self.filename`, which is
modelled by returning the filename in the error position. -/
def TikaDocument.parse_date {DT : Type} (rfc3339 fallbackFmt : List Char → Option DT)
    (d : TikaDocument) : Except (List Char) DT :=
  match rfc3339 d.date with
  | some t => .ok t
  | none =>
    match fallbackFmt d.date with
    | some t => .ok t
    | none => .error d.filename

/-- Shape of an incoming serde value as far as `string_or_list_string` can
observe it through `deserialize_any`: a string scalar, a sequence, or
anything else. -/
inductive YamlVal where
  | str (s : List Char)
  | seq (items : List YamlVal)
  | other

/-- Deserializing `Vec<String>` from a serde sequence
(`SeqAccessDeserializer`): every element must itself be a string, order is
preserved, anything else is a type error (`none`). -/
def seqStrings : List YamlVal → Option (List (List Char))
  | [] => some []
  | .str s :: rest => (seqStrings rest).map (fun l => s :: l)
  | .seq _ :: _ => none
  | .other :: _ => none

/-- `string_or_list_string` (src/src/tika_document.rs lines 59-89): the
visitor's `visit_str` wraps a scalar into a one-element list, `visit_seq`
delegates to plain `Vec<String>` deserialization, and any other incoming
shape is a deserialization error. -/
def string_or_list_string : YamlVal → Option (List (List Char))
  | .str s => some [s]
  | .seq items => seqStrings items
  | .other => none

/-- The steps of `parse_file` (src/src/tika_document.rs lines 103-110)
after the front matter has deserialized into `doc`: when the front matter
supplied no filename (serde default, the empty string) the file-name
component of the filesystem path is substituted, then the body is set
from the content after the front matter. -/
def parse_file_finish (doc : TikaDocument) (pathFileName content : List Char) :
    TikaDocument :=
  let doc :=
    if doc.filename = [] then { doc with filename := pathFileName } else doc
  { doc with body := content }

/-- `usize` wrapping subtraction: release-mode Rust arithmetic on the
64-bit `usize` used for `self.matches.len() - 1`. -/
def usizeSub (a b : Nat) : Nat :=
  (a + (18446744073709551616 - b)) % 18446744073709551616

/-- `TerminalApp` (src/src/tui_app.rs lines 32-39): query input buffer,
current match list, and the tui `ListState` selection (its `selected()`
value). -/
structure TerminalApp where
  input : List Char
  matchList : List TikaDocument
  state : Option Nat
deriving DecidableEq

/-- `TerminalApp::next` (src/src/tui_app.rs lines 52-64): cursor-down over
the match list; `i >= self.matches.len() - 1` wraps to 0, no selection
selects 0, and the result is always `select(Some(i))`. -/
def TerminalApp.next (a : TerminalApp) : TerminalApp :=
  let i :=
    match a.state with
    | some i => if usizeSub a.matchList.length 1 ≤ i then 0 else i + 1
    | none => 0
  { a with state := some i }

/-- `TerminalApp::previous` (src/src/tui_app.rs lines 66-78): cursor-up
over the match list; from 0 it wraps to `self.matches.len() - 1`, no
selection selects 0, and the result is always `select(Some(i))`. -/
def TerminalApp.previous (a : TerminalApp) : TerminalApp :=
  let i :=
    match a.state with
    | some i => if i = 0 then usizeSub a.matchList.length 1 else i - 1
    | none => 0
  { a with state := some i }

/-- The newline pushed onto the query buffer before each parse
(src/src/tui_app.rs lines 199-201). -/
def chNL : Char := '\n'

/-- State carried by the interactive loop of `interactive_query`
(src/src/tui_app.rs lines 109-212): the `TerminalApp` triple plus, as a
history variable, the list of queries submitted to `query_db` so far. -/
structure LoopState where
  app : TerminalApp
  submitted : List XQuery
deriving DecidableEq

/-- The discrete input events the loop distinguishes
(src/src/tui_app.rs lines 176-196). -/
inductive KeyEvent where
  | enter
  | ctrlC
  | char (c : Char)
  | backspace
  | down
  | up
  | other
deriving DecidableEq

/-- Result of one pass of the loop body for one input event. -/
inductive StepResult where
  | looping (s : LoopState)
  | finished (s : LoopState)
  | panicked
deriving DecidableEq

/-- One iteration of the event-handling body of `interactive_query`
(src/src/tui_app.rs lines 175-206): `Enter` and `Ctrl-C` break out of the
loop; every other event first mutates the app state per its match arm and
then unconditionally re-parses the buffer (with `"\n"` appended) and
re-submits the resulting query, replacing `app.matches` with the engine's
answer.  `engine` abstracts `query_db`. -/
def step (engine : XQuery → List TikaDocument) (s : LoopState) (ev : KeyEvent) :
    StepResult :=
  match ev with
  | .enter => .finished s
  | .ctrlC => .finished s
  | _ =>
    let app :=
      match ev with
      | .char c => { s.app with input := s.app.input ++ [c] }
      | .backspace => { s.app with input := s.app.input.dropLast }
      | .down => TerminalApp.next s.app
      | .up => TerminalApp.previous s.app
      | _ => s.app
    match parse_user_query (app.input ++ [chNL]) with
    | .panicked => .panicked
    | .ok q =>
      .looping { app := { app with matchList := engine q },
                 submitted := s.submitted ++ [q] }

/-- A concrete sample document for closed evaluations. -/
def doc0 : TikaDocument :=
  { filename := s2l "a.md", full_path := s2l "/notes/a.md", author := [],
    date := [], tags := [], title := s2l "Alpha", body := [] }

/-- A concrete document whose front matter supplied no filename
(the serde default, the empty string). -/
def docNoName : TikaDocument :=
  { filename := [], full_path := [], author := [], date := [], tags := [],
    title := [], body := [] }

/-- A concrete engine answering every query with no matches. -/
def engine0 : XQuery → List TikaDocument := fun _ => []

/-- A concrete loop state: empty buffer, one match currently listed,
nothing selected, no query submitted yet. -/
def st0 : LoopState :=
  { app := { input := [], matchList := [doc0], state := none }, submitted := [] }

/-- Match list of the state inside a step result, if the loop survived. -/
def stepMatchList : StepResult → Option (List TikaDocument)
  | .looping s => some s.app.matchList
  | .finished s => some s.app.matchList
  | .panicked => none

/-- Submitted-query history inside a step result, if the loop survived. -/
def stepSubmitted : StepResult → Option (List XQuery)
  | .looping s => some s.submitted
  | .finished s => some s.submitted
  | .panicked => none

/-- A concrete date parser accepting nothing. -/
def rfcNone : List Char → Option Nat := fun _ => none

/-- A concrete date parser accepting every string. -/
def rfcSome : List Char → Option Nat := fun _ => some 7

/-- Claim C1: the prefixes `perform_index` writes when tagging each field's
terms equal, field for field, the prefixes `XapianTag::to_xapian` resolves
on the query side, so a field-scoped query term resolves to the same
prefix under which the value was indexed. -/
theorem c1_index_and_query_tags_agree
    (author dateStr filename fullPath title subtitle : List Char)
    (tags : List (List Char)) :
    perform_index_terms author dateStr filename fullPath title subtitle tags =
      [(XapianTag.to_xapian .Author, author), (XapianTag.to_xapian .Date, dateStr),
       (XapianTag.to_xapian .Filename, filename), (XapianTag.to_xapian .Fullpath, fullPath),
       (XapianTag.to_xapian .Title, title), (XapianTag.to_xapian .Subtitle, subtitle)]
      ++ tags.map (fun v => (XapianTag.to_xapian .Tag, v)) :=
  rfl

/-- Claim C2, evaluated at the failing input: contrary to the claim that
query parsing never terminates the process, `parse_user_query "foo AND"`
panics: `take_up_to_operator` stops in front of the trailing `AND`, and
`matchop` on `"AND"` hits the streaming `tag_no_case("AND NOT")`, which
reports `incomplete`; nom's `alt` propagates that instead of trying the
shorter `AND`, so the `if let Ok` fails and the
`panic!("Couldn't match leading operator ...")` arm runs. -/
theorem c2_parse_user_query_panics_on_trailing_and :
    parse_user_query (s2l "foo AND") = .panicked := by decide

/-- Claim C3: operator recognition is longest-match-first.  `matchop` on
any input beginning with `AND NOT` recognizes the single operator
`AND NOT` (never the shorter `AND`), and the full parse of
`"foo AND NOT bar"` yields one `AND NOT`-joined pair. -/
theorem c3_and_not_longest_match :
    (∀ s : List Char, matchop (s2l "AND NOT" ++ s) = .ok s .AndNot) ∧
    parse_user_query (s2l "foo AND NOT bar") =
      .ok (.node (.leaf (s2l "foo ")) .AndNot (.leaf (s2l " bar"))) :=
  ⟨fun _ => rfl, by decide⟩

/-- Claim C4: tag front-matter deserialization is shape-polymorphic: a
scalar string becomes the one-element list, and a list of strings is
preserved unchanged, in order. -/
theorem c4_tags_scalar_or_list :
    (∀ s : List Char, string_or_list_string (.str s) = some [s]) ∧
    (∀ L : List (List Char), string_or_list_string (.seq (L.map .str)) = some L) := by
  refine ⟨fun s => rfl, fun L => ?_⟩
  induction L with
  | nil => rfl
  | cons h t ih =>
    simp only [string_or_list_string, List.map, seqStrings] at ih ⊢
    rw [ih]
    rfl

/-- Claim C5: parsing the empty query string succeeds: no operator
spelling occurs in it, so the whole (empty) string is handed to the
engine's default parser, returning `Ok` with the empty/default query, and
no parse-error path is taken. -/
theorem c5_empty_query_is_ok :
    parse_user_query (s2l "") = .ok (.leaf (s2l "")) := by decide

/-- Claim C6 counterexample: at a concrete loop state with one listed
match and an empty submission history, processing a cursor-down event —
and likewise a cursor-up event — leaves neither the result list nor the
set of submitted queries unchanged: the buffer's query is re-submitted
and the result list is replaced by the engine's answer. -/
theorem c6_counterexample_down_requeries :
    (stepMatchList (step engine0 st0 .down) ≠ some st0.app.matchList ∧
     stepSubmitted (step engine0 st0 .down) ≠ some st0.submitted) ∧
    (stepMatchList (step engine0 st0 .up) ≠ some st0.app.matchList ∧
     stepSubmitted (step engine0 st0 .up) ≠ some st0.submitted) := by
  decide

/-- Claim C6 as amended: a cursor-down or cursor-up event leaves the
query buffer unchanged and moves only the selection cursor within its
match arm, but the loop body then re-submits the (unchanged) buffer's
query — as it does after every input event — appending it to the
submission history and replacing the result list with the engine's
answer. -/
theorem c6_amended_every_event_requeries (engine : XQuery → List TikaDocument)
    (s : LoopState) (q : XQuery)
    (h : parse_user_query (s.app.input ++ [chNL]) = .ok q) :
    step engine s .down =
      .looping { app := { TerminalApp.next s.app with matchList := engine q },
                 submitted := s.submitted ++ [q] } ∧
    step engine s .up =
      .looping { app := { TerminalApp.previous s.app with matchList := engine q },
                 submitted := s.submitted ++ [q] } := by
  constructor
  · have hstep : step engine s .down =
        match parse_user_query (s.app.input ++ [chNL]) with
        | .panicked => StepResult.panicked
        | .ok q2 =>
          .looping { app := { TerminalApp.next s.app with matchList := engine q2 },
                     submitted := s.submitted ++ [q2] } := rfl
    rw [hstep, h]
  · have hstep : step engine s .up =
        match parse_user_query (s.app.input ++ [chNL]) with
        | .panicked => StepResult.panicked
        | .ok q2 =>
          .looping { app := { TerminalApp.previous s.app with matchList := engine q2 },
                     submitted := s.submitted ++ [q2] } := rfl
    rw [hstep, h]

/-- Witness for the amended C6 at the concrete state `st0`, covering both
navigation directions. -/
theorem c6_amended_witness :
    step engine0 st0 .down =
      .looping { app := { TerminalApp.next st0.app with
                          matchList := engine0 (XQuery.leaf [chNL]) },
                 submitted := st0.submitted ++ [XQuery.leaf [chNL]] } ∧
    step engine0 st0 .up =
      .looping { app := { TerminalApp.previous st0.app with
                          matchList := engine0 (XQuery.leaf [chNL]) },
                 submitted := st0.submitted ++ [XQuery.leaf [chNL]] } :=
  c6_amended_every_event_requeries engine0 st0 (XQuery.leaf [chNL]) rfl

/-- `usize` wrapping subtraction of 1 agrees with truncated subtraction on
the range of an actual `Vec` length. -/
theorem usizeSub_one (n : Nat) (h1 : 0 < n) (h2 : n < 18446744073709551616) :
    usizeSub n 1 = n - 1 := by
  unfold usizeSub
  omega

/-- Claim C7: result-list navigation wraps around: on a non-empty match
list of length n with selection i, `next` at i = n-1 selects 0 and
otherwise selects i+1; `previous` at 0 selects n-1 and otherwise selects
i-1.  The bound on n is the `usize` range of a `Vec` length. -/
theorem c7_navigation_wraparound (inp : List Char) (m : List TikaDocument) (i : Nat)
    (hn : 0 < m.length) (hw : m.length < 18446744073709551616) (_hi : i < m.length) :
    (i = m.length - 1 →
      (TerminalApp.next { input := inp, matchList := m, state := some i }).state
        = some 0) ∧
    (i < m.length - 1 →
      (TerminalApp.next { input := inp, matchList := m, state := some i }).state
        = some (i + 1)) ∧
    (i = 0 →
      (TerminalApp.previous { input := inp, matchList := m, state := some i }).state
        = some (m.length - 1)) ∧
    (0 < i →
      (TerminalApp.previous { input := inp, matchList := m, state := some i }).state
        = some (i - 1)) := by
  have hs := usizeSub_one m.length hn hw
  refine ⟨fun h => ?_, fun h => ?_, fun h => ?_, fun h => ?_⟩
  · show some (if usizeSub m.length 1 ≤ i then 0 else i + 1) = some 0
    rw [hs, if_pos (by omega)]
  · show some (if usizeSub m.length 1 ≤ i then 0 else i + 1) = some (i + 1)
    rw [hs, if_neg (by omega)]
  · show some (if i = 0 then usizeSub m.length 1 else i - 1) = some (m.length - 1)
    rw [if_pos h, hs]
  · show some (if i = 0 then usizeSub m.length 1 else i - 1) = some (i - 1)
    rw [if_neg (by omega)]

/-- Witness for C7 on a three-element match list. -/
theorem c7_witness :
    0 < ([doc0, doc0, doc0] : List TikaDocument).length ∧
    (TerminalApp.next { input := [], matchList := [doc0, doc0, doc0],
                        state := some 2 }).state = some 0 ∧
    (TerminalApp.previous { input := [], matchList := [doc0, doc0, doc0],
                            state := some 0 }).state = some 2 :=
  ⟨by decide,
   (c7_navigation_wraparound [] [doc0, doc0, doc0] 2
      (by decide) (by decide) (by decide)).1 rfl,
   (c7_navigation_wraparound [] [doc0, doc0, doc0] 0
      (by decide) (by decide) (by decide)).2.2.1 rfl⟩

/-- Claim C8: `parse_date` accepts exactly the two input shapes: it
returns `Ok` with the timestamp when the RFC 3339 parser accepts the
document's date string, otherwise `Ok` when the fallback
`%Y-%m-%dT%T%z` parser accepts it, and `Err` (carrying the filename)
when both reject; being a total function of the two parsers' verdicts, it
never panics. -/
theorem c8_parse_date_two_shapes {DT : Type} (rfc3339 fallbackFmt : List Char → Option DT)
    (d : TikaDocument) :
    (∀ t, rfc3339 d.date = some t →
      TikaDocument.parse_date rfc3339 fallbackFmt d = .ok t) ∧
    (rfc3339 d.date = none → ∀ t, fallbackFmt d.date = some t →
      TikaDocument.parse_date rfc3339 fallbackFmt d = .ok t) ∧
    (rfc3339 d.date = none → fallbackFmt d.date = none →
      TikaDocument.parse_date rfc3339 fallbackFmt d = .error d.filename) := by
  refine ⟨fun t h => ?_, fun h1 t h2 => ?_, fun h1 h2 => ?_⟩
  · simp [TikaDocument.parse_date, h]
  · simp [TikaDocument.parse_date, h1, h2]
  · simp [TikaDocument.parse_date, h1, h2]

/-- Witness for C8 with concrete parsers on both outcome paths. -/
theorem c8_witness :
    TikaDocument.parse_date rfcSome rfcNone doc0 = .ok 7 ∧
    TikaDocument.parse_date rfcNone rfcNone doc0 = .error doc0.filename :=
  ⟨(c8_parse_date_two_shapes rfcSome rfcNone doc0).1 7 rfl,
   (c8_parse_date_two_shapes rfcNone rfcNone doc0).2.2 rfl rfl⟩

/-- Claim C9: when the front matter supplied no filename (it deserialized
to the empty string), `parse_file` substitutes the file-name component of
the filesystem path; a non-empty front-matter filename is kept
unchanged. -/
theorem c9_filename_fallback (doc : TikaDocument) (p c : List Char) :
    (doc.filename = [] → (parse_file_finish doc p c).filename = p) ∧
    (doc.filename ≠ [] → (parse_file_finish doc p c).filename = doc.filename) := by
  constructor
  · intro h
    simp [parse_file_finish, h]
  · intro h
    simp [parse_file_finish, h]

/-- Witness for C9 on both branches. -/
theorem c9_witness :
    (parse_file_finish docNoName (s2l "n.md") []).filename = s2l "n.md" ∧
    (parse_file_finish doc0 (s2l "n.md") []).filename = doc0.filename :=
  ⟨(c9_filename_fallback docNoName (s2l "n.md") []).1 rfl,
   (c9_filename_fallback doc0 (s2l "n.md") []).2 (by decide)⟩

/-- Claim C10: when nothing is selected, both `next` and `previous` select
index 0 (`previous` does not select the last element), and after any call
to either a selection exists. -/
theorem c10_initial_selection (a : TerminalApp) :
    (a.state = none →
      (TerminalApp.next a).state = some 0 ∧
      (TerminalApp.previous a).state = some 0) ∧
    (∃ j, (TerminalApp.next a).state = some j) ∧
    (∃ j, (TerminalApp.previous a).state = some j) := by
  refine ⟨fun h => ?_, ⟨_, rfl⟩, ⟨_, rfl⟩⟩
  constructor
  · show some (match a.state with
      | some i => if usizeSub a.matchList.length 1 ≤ i then 0 else i + 1
      | none => 0) = some 0
    rw [h]
  · show some (match a.state with
      | some i => if i = 0 then usizeSub a.matchList.length 1 else i - 1
      | none => 0) = some 0
    rw [h]

/-- Witness for C10 at a concrete unselected state. -/
theorem c10_witness :
    (TerminalApp.next { input := [], matchList := [], state := none }).state = some 0 ∧
    (TerminalApp.previous { input := [], matchList := [], state := none }).state = some 0 :=
  (c10_initial_selection { input := [], matchList := [], state := none }).1 rfl
